import Mathlib

/-!
Verification of the energy-spectrum blocks of flamedisx
(`flamedisx/lxe_blocks/energy_spectrum.py`).

The Python code is shallowly embedded: numpy/tensorflow arrays become
`List ℚ` (or `Fin n → ℚ` matrices), float arithmetic is idealized as exact
rational (or real) arithmetic, and every `assert`/`raise` becomes an
`Except` error value.  External collaborators that are not part of the
source file (multihist, wimprates, `fd` utility functions) are modelled
from the spec, with doc comments saying so.
-/

namespace Flamedisx

/-- Arithmetic mean of a list of rationals, as `np.mean`: sum divided by
the number of elements. -/
def listMean (xs : List ℚ) : ℚ := xs.sum / xs.length

/-- Elementwise quotient `E / bv` of two same-shape arrays, flattened. -/
def ratios (E bv : List ℚ) : List ℚ := List.zipWith (· / ·) E bv

/-! ## SpatialRateEnergySpectrum.setup -/

/-- Failure modes of `SpatialRateEnergySpectrum.setup` (each Python
`assert`/shape error becomes one constructor). -/
inductive SetupError where
  | badAxes        -- axis_names not (r, theta, z) and not (x, y, z)
  | shapeMismatch  -- E and bv do not have identical shape
  | notNormalized  -- the 0.9999 < mean(E/bv) < 1.0001 assert fails
  deriving DecidableEq, Repr

/-- Engine state constructed by a successful
`SpatialRateEnergySpectrum.setup`: the polar-coordinates flag and the
normalized density array `R_norm` stored in `spatial_rate_pdf`. -/
structure SpatialState where
  polar : Bool
  R_norm : List ℚ
  deriving DecidableEq, Repr

/-- Embedding of `SpatialRateEnergySpectrum.setup`.  `axes` are the
`axis_names` of `spatial_rate_hist`, `E` its histogram (flattened) and
`bv` the flattened `spatial_rate_bin_volumes`.  Mirrors the source:
determine the coordinate convention, compute
`R_norm = (E / bv) * (bv.sum() / E.sum())`, then assert
`0.9999 < np.mean(E / bv) < 1.0001` (strict on both sides). -/
def spatialSetup (axes : List String) (E bv : List ℚ) :
    Except SetupError SpatialState :=
  if axes = ["r", "theta", "z"] ∨ axes = ["x", "y", "z"] then
    if E.length = bv.length then
      let R_norm := List.zipWith (fun e b => (e / b) * (bv.sum / E.sum)) E bv
      if 9999/10000 < listMean (ratios E bv) ∧
          listMean (ratios E bv) < 10001/10000 then
        Except.ok ⟨decide (axes = ["r", "theta", "z"]), R_norm⟩
      else
        Except.error SetupError.notNormalized
    else
      Except.error SetupError.shapeMismatch
  else
    Except.error SetupError.badAxes

/-- Bin-volume-weighted sum of a density array: `Σᵢ R_norm ᵢ · bvᵢ`. -/
def weightedSum (R bv : List ℚ) : ℚ := (List.zipWith (· * ·) R bv).sum

theorem weightedSum_R_norm (c : ℚ) :
    ∀ (E bv : List ℚ), E.length = bv.length → (∀ b ∈ bv, b ≠ 0) →
      weightedSum (List.zipWith (fun e b => (e / b) * c) E bv) bv = c * E.sum
  | [], [], _, _ => by simp [weightedSum]
  | [], b :: bv, h, _ => by simp at h
  | e :: E, [], h, _ => by simp at h
  | e :: E, b :: bv, h, hb => by
    have hb0 : b ≠ 0 := hb b (List.mem_cons_self b bv)
    have ih := weightedSum_R_norm c E bv (by simpa using h)
      (fun x hx => hb x (List.mem_cons_of_mem b hx))
    simp only [weightedSum, List.zipWith_cons_cons, List.sum_cons, List.sum_nil] at *
    rw [ih]
    field_simp
    ring

/-- C1 as stated is false: take `E = [3, 2]`, `bv = [2, 4]`.  Then
`mean(E/bv) = (3/2 + 1/2)/2 = 1` exactly and setup succeeds, but the
bin-volume-weighted sum of `R_norm` is `Σbv = 6`, not `ΣE = 5`. -/
theorem C1_counterexample :
    listMean (ratios [3, 2] [2, 4]) = 1 ∧
    spatialSetup ["x", "y", "z"] [3, 2] [2, 4] =
      Except.ok ⟨false, [9/5, 3/5]⟩ ∧
    weightedSum [9/5, 3/5] [2, 4] = 6 ∧
    ([3, 2] : List ℚ).sum = 5 ∧
    (6 : ℚ) ≠ 5 := by
  refine ⟨by norm_num [listMean, ratios], ?_, by norm_num [weightedSum], by norm_num, by norm_num⟩
  rw [spatialSetup, if_pos (Or.inr rfl), if_pos (by norm_num),
    if_pos (by norm_num [listMean, ratios])]
  norm_num
  decide

/-- C1 (amended): for every histogram `E` and bin-volume array `bv` of
identical shape with nonzero bin volumes, nonzero total `E`, valid axis
names and `mean(E/bv) = 1` exactly, `SpatialRateEnergySpectrum.setup`
succeeds and the resulting `R_norm`, summed with each bin weighted by its
bin volume, equals the total sum of `bv` (not, in general, of `E`). -/
theorem C1_spec (axes : List String) (E bv : List ℚ)
    (hax : axes = ["r", "theta", "z"] ∨ axes = ["x", "y", "z"])
    (hlen : E.length = bv.length)
    (hbv : ∀ b ∈ bv, b ≠ 0) (hE : E.sum ≠ 0)
    (hmean : listMean (ratios E bv) = 1) :
    ∃ s, spatialSetup axes E bv = Except.ok s ∧
      weightedSum s.R_norm bv = bv.sum := by
  refine ⟨⟨decide (axes = ["r", "theta", "z"]),
          List.zipWith (fun e b => (e / b) * (bv.sum / E.sum)) E bv⟩, ?_, ?_⟩
  · rw [spatialSetup, if_pos hax, if_pos hlen, if_pos]
    rw [hmean]
    norm_num
  · rw [weightedSum_R_norm _ E bv hlen hbv, div_mul_cancel₀ _ hE]

/-- Witness for C1: the amended statement at the concrete input
`E = [3, 2]`, `bv = [2, 4]`. -/
theorem C1_witness :
    ∃ s, spatialSetup ["x", "y", "z"] [3, 2] [2, 4] = Except.ok s ∧
      weightedSum s.R_norm [2, 4] = ([2, 4] : List ℚ).sum :=
  C1_spec ["x", "y", "z"] [3, 2] [2, 4] (Or.inr rfl) (by norm_num)
    (by norm_num) (by norm_num) (by norm_num [listMean, ratios])

/-- C2 as stated is false at the boundary: with `E = [9999/10000]` and
`bv = [1]`, `mean(E/bv) = 0.9999` exactly, which the claim's closed
interval `[0.9999, 1.0001]` admits, yet setup fails because the source
asserts `0.9999 < mean(E/bv) < 1.0001` with strict inequalities. -/
theorem C2_counterexample :
    listMean (ratios [9999/10000] [1]) = 9999/10000 ∧
    spatialSetup ["x", "y", "z"] [9999/10000] [1] =
      Except.error SetupError.notNormalized := by
  constructor
  · norm_num [listMean, ratios]
  · norm_num [spatialSetup, listMean, ratios]

/-- C2 (amended): with valid axis names and identically shaped inputs,
`SpatialRateEnergySpectrum.setup` succeeds exactly when `mean(E/bv)` lies
in the OPEN interval `(0.9999, 1.0001)` (boundary values excluded) and
fails otherwise; the failure is raised at setup and the error result
carries no constructed engine state. -/
theorem C2_spec (axes : List String) (E bv : List ℚ)
    (hax : axes = ["r", "theta", "z"] ∨ axes = ["x", "y", "z"])
    (hlen : E.length = bv.length) :
    ((∃ s, spatialSetup axes E bv = Except.ok s) ↔
      (9999/10000 < listMean (ratios E bv) ∧
        listMean (ratios E bv) < 10001/10000)) ∧
    (¬ (9999/10000 < listMean (ratios E bv) ∧
        listMean (ratios E bv) < 10001/10000) →
      spatialSetup axes E bv = Except.error SetupError.notNormalized) := by
  have hred : spatialSetup axes E bv =
      if 9999/10000 < listMean (ratios E bv) ∧
          listMean (ratios E bv) < 10001/10000 then
        Except.ok ⟨decide (axes = ["r", "theta", "z"]),
          List.zipWith (fun e b => (e / b) * (bv.sum / E.sum)) E bv⟩
      else Except.error SetupError.notNormalized := by
    rw [spatialSetup, if_pos hax, if_pos hlen]
  rw [hred]
  by_cases h : 9999/10000 < listMean (ratios E bv) ∧
      listMean (ratios E bv) < 10001/10000
  · rw [if_pos h]
    refine ⟨⟨fun _ => h, fun _ => ⟨_, rfl⟩⟩, fun hn => absurd h hn⟩
  · rw [if_neg h]
    refine ⟨⟨?_, fun hc => absurd hc h⟩, fun _ => rfl⟩
    rintro ⟨s, hs⟩
    simp at hs

/-- Witness for C2: at `E = bv = [1]` the mean is exactly 1, inside the
open interval, and setup indeed succeeds. -/
theorem C2_witness :
    ∃ s, spatialSetup ["x", "y", "z"] [1] [1] = Except.ok s :=
  (C2_spec ["x", "y", "z"] [1] [1] (Or.inr rfl) rfl).1.mpr
    (by norm_num [listMean, ratios])

/-! ## WIMPEnergySpectrum.setup and mu_before_efficiencies -/

namespace WIMPEnergySpectrum

/-- Embedding of `WIMPEnergySpectrum.bin_centers`: pairwise bin centers
`0.5 * (x[1:] + x[:-1])` of an array of `n + 1` bin edges. -/
def bin_centers {n : ℕ} (edges : Fin (n + 1) → ℚ) : Fin n → ℚ :=
  fun i => (edges i.castSucc + edges i.succ) / 2

/-- Embedding of `np.diff(edges)`: widths of the `n` bins delimited by `n + 1` edges. -/
def binWidths {n : ℕ} (edges : Fin (n + 1) → ℚ) : Fin n → ℚ :=
  fun i => edges i.succ - edges i.castSucc

/-- Embedding of `np.linspace(t0, t1, nt + 1)`: `nt + 1` equally spaced points from
`t0` to `t1` inclusive. -/
def linspace (t0 t1 : ℚ) (nt : ℕ) : Fin (nt + 1) → ℚ :=
  fun i => t0 + (t1 - t0) * i / nt

/-- The 2-D (time × energy) spectra table assembled by
`WIMPEnergySpectrum.setup`: for each time-bin center, the external
differential-rate model (wimprates `rate_wimp_std`, an out-of-repo
collaborator abstracted as the function `rate` of a time and an energy)
evaluated at every energy-bin center and multiplied by the energy-bin
width.  Times run over the centers of `nt` equal bins between the
(j2000-converted) start and stop instants. -/
def spectra (rate : ℚ → ℚ → ℚ) (t0 t1 : ℚ) (nt : ℕ)
    {ne : ℕ} (energy_edges : Fin (ne + 1) → ℚ) :
    Fin nt → Fin ne → ℚ :=
  fun t e =>
    rate (bin_centers (linspace t0 t1 nt) t) (bin_centers energy_edges e) *
      binWidths energy_edges e

/-- The `pretend_wimps_dont_modulate` step of `setup`: when the flag is
on, every time row of the histogram is replaced by the column sums over
the time axis divided by `n_time_bins` (the time-averaged row); when it
is off the histogram is kept as built. -/
def applyModulationFlag {nt ne : ℕ} (pretend : Bool)
    (H : Fin nt → Fin ne → ℚ) : Fin nt → Fin ne → ℚ :=
  if pretend then fun _ e => (∑ t, H t e) / nt else H

/-- Total count `Histdd.n` of the energy histogram: the sum of all its entries. -/
def histTotal {nt ne : ℕ} (H : Fin nt → Fin ne → ℚ) : ℚ :=
  ∑ t, ∑ e, H t e

/-- Embedding of `WIMPEnergySpectrum.mu_before_efficiencies`: the total count of the
histogram built by `setup` (modulation-averaging step included), divided
by `n_time_bins`. -/
def mu_before_efficiencies (rate : ℚ → ℚ → ℚ) (t0 t1 : ℚ) (nt : ℕ)
    {ne : ℕ} (energy_edges : Fin (ne + 1) → ℚ) (pretend : Bool) : ℚ :=
  histTotal (applyModulationFlag pretend (spectra rate t0 t1 nt energy_edges)) / nt

theorem histTotal_applyModulationFlag {nt ne : ℕ}
    (H : Fin nt → Fin ne → ℚ) (p : Bool) :
    histTotal (applyModulationFlag p H) = histTotal H := by
  cases p
  · rfl
  · rcases Nat.eq_zero_or_pos nt with h | h
    · subst h
      simp [applyModulationFlag, histTotal]
    · have hnt : (nt : ℚ) ≠ 0 := Nat.cast_ne_zero.mpr h.ne'
      show (∑ _t : Fin nt, ∑ e, (∑ s, H s e) / (nt : ℚ)) = histTotal H
      calc (∑ _t : Fin nt, ∑ e, (∑ s, H s e) / (nt : ℚ))
          = ∑ _t : Fin nt, (∑ e, ∑ s, H s e) / (nt : ℚ) := by
            simp only [← Finset.sum_div]
        _ = (nt : ℚ) * ((∑ e, ∑ s, H s e) / nt) := by
            rw [Finset.sum_const, Finset.card_univ, Fintype.card_fin, nsmul_eq_mul]
        _ = ∑ e, ∑ s, H s e := mul_div_cancel₀ _ hnt
        _ = histTotal H := Finset.sum_comm

end WIMPEnergySpectrum

/-- C3: for the same underlying rate model and configuration,
`WIMPEnergySpectrum.mu_before_efficiencies` (total histogram count over
`n_time_bins`) is the same whether `pretend_wimps_dont_modulate` is true
or false: replacing every time row by the time-averaged row preserves the
total count. -/
theorem C3_spec (rate : ℚ → ℚ → ℚ) (t0 t1 : ℚ) (nt ne : ℕ)
    (energy_edges : Fin (ne + 1) → ℚ) :
    WIMPEnergySpectrum.mu_before_efficiencies rate t0 t1 nt energy_edges true =
      WIMPEnergySpectrum.mu_before_efficiencies rate t0 t1 nt energy_edges false := by
  unfold WIMPEnergySpectrum.mu_before_efficiencies
  rw [WIMPEnergySpectrum.histTotal_applyModulationFlag,
    WIMPEnergySpectrum.histTotal_applyModulationFlag]

/-! ## EnergySpectrum.domain -/

/-- The `energies` model attribute as seen by `EnergySpectrum.domain`:
either a realized `tf.Tensor` holding numeric values, or some other
not-yet-realized object such as a lazily evaluated expression. -/
inductive EnergiesAttr where
  | tensor (values : List ℚ)
  | lazyExpression
  deriving DecidableEq, Repr

/-- Failure of `domain`: the `assert isinstance(self.energies, tf.Tensor)`
at its head. -/
inductive DomainError where
  | notRealized
  deriving DecidableEq, Repr

/-- Embedding of `EnergySpectrum.domain`: assert the configured energy grid is a
realized tensor, then return the grid repeated `batch_size` times along a
new leading axis (`tf.repeat`). -/
def domain (energies : EnergiesAttr) (batch_size : ℕ) :
    Except DomainError (List (List ℚ)) :=
  match energies with
  | .tensor v => Except.ok (List.replicate batch_size v)
  | .lazyExpression => Except.error DomainError.notRealized

/-- C7: for a realized energy grid, `domain(batch_size)` returns
`batch_size` identical copies of the grid (one per batch row); for a grid
that is not a realized tensor it fails instead of returning a value. -/
theorem C7_spec (v : List ℚ) (batch_size : ℕ) :
    domain (EnergiesAttr.tensor v) batch_size =
      Except.ok (List.replicate batch_size v) ∧
    (List.replicate batch_size v).length = batch_size ∧
    (∀ row ∈ List.replicate batch_size v, row = v) ∧
    domain EnergiesAttr.lazyExpression batch_size =
      Except.error DomainError.notRealized :=
  ⟨rfl, List.length_replicate _ _,
    fun _ hrow => List.eq_of_mem_replicate hrow, rfl⟩

/-- Witness for C7 at the grid `[1, 2]` and batch size 3. -/
theorem C7_witness :
    domain (EnergiesAttr.tensor [1, 2]) 3 = Except.ok (List.replicate 3 [1, 2]) ∧
    ([1, 2] : List ℚ) = [1, 2] :=
  ⟨(C7_spec [1, 2] 3).1, (C7_spec [1, 2] 3).2.2.1 [1, 2] (by decide)⟩

/-! ## VariableEnergySpectrum.energy_spectrum (default implementation) -/

/-- A Python value as it can be passed to `tf.ones`. -/
inductive PyVal where
  | int (n : ℕ)          -- a Python integer such as a len(...)
  | shapePair (a b : ℕ)  -- a 2-element shape tuple
  | dtypeObject          -- a tensorflow dtype
  deriving DecidableEq, Repr

/-- A tensorflow all-ones tensor, identified by its shape. -/
inductive PyTensor where
  | onesVec (n : ℕ)
  | onesMat (r c : ℕ)
  deriving DecidableEq, Repr

inductive PyError where
  | duplicateDtypeArgument  -- TypeError: got multiple values for argument
  | invalidDtype            -- second argument is not a dtype
  | invalidShape
  deriving DecidableEq, Repr

/-- Python call binding for `tf.ones(shape, dtype=..., name=...)`
(tensorflow collaborator): the first positional argument binds to
`shape` and the SECOND positional argument binds to `dtype`; passing
`dtype` positionally and by keyword at once raises `TypeError` before the
function body runs.  A legal call returns the all-ones tensor of the
given shape. -/
def tf_ones (posArgs : List PyVal) (kwDtype : Option PyVal) :
    Except PyError PyTensor :=
  if 2 ≤ posArgs.length ∧ kwDtype.isSome then
    Except.error PyError.duplicateDtypeArgument
  else
    match posArgs with
    | [PyVal.int n] => Except.ok (PyTensor.onesVec n)
    | [PyVal.shapePair a b] => Except.ok (PyTensor.onesMat a b)
    | [PyVal.int n, PyVal.dtypeObject] => Except.ok (PyTensor.onesVec n)
    | [PyVal.shapePair a b, PyVal.dtypeObject] => Except.ok (PyTensor.onesMat a b)
    | [_, _] => Except.error PyError.invalidDtype
    | _ => Except.error PyError.invalidShape

namespace VariableEnergySpectrum

/-- The default (non-overridden) `VariableEnergySpectrum.energy_spectrum`:
the source calls
`tf.ones(len(event_time), len(self.energies), dtype=fd.float_type())` —
two positional arguments plus the `dtype` keyword. -/
def energy_spectrum (event_time energies : List ℚ) :
    Except PyError PyTensor :=
  tf_ones [PyVal.int event_time.length, PyVal.int energies.length]
    (some PyVal.dtypeObject)

end VariableEnergySpectrum

/-- C9: for every input batch of event times, the default
`VariableEnergySpectrum.energy_spectrum` raises a `TypeError` (the
energy-grid length is passed as a second positional argument, which binds
to `dtype`, while `dtype` is also passed by keyword) rather than
returning the documented all-ones 2-D spectrum. -/
theorem C9_spec (event_time energies : List ℚ) :
    VariableEnergySpectrum.energy_spectrum event_time energies =
      Except.error PyError.duplicateDtypeArgument := rfl

/-! ## Truth sampling (`random_truth`)

Times are represented throughout in wimprates j2000 day-count
coordinates, so the external conversions `wr.j2000` and
`fd.j2000_to_event_time` become identities of the embedding. -/

/-- A batch of truth records as produced by `random_truth`: the per-event
energies and event times.  Positions are drawn independently of both and
play no role in the verified claims. -/
structure TruthData where
  energy : List ℚ
  event_time : List ℚ
  deriving DecidableEq, Repr

/-- A resolved fix_truth mapping, reduced to the two keys `random_truth`
inspects: `event_time` and `energy` (each present or absent). -/
structure FixTruthMap where
  event_time : Option ℚ
  energy : Option ℚ
  deriving DecidableEq, Repr

/-- Modelled from the spec: `Source._overwrite_fixed_truths` is not in
the given source file.  Per the spec it deterministically overwrites
every field present in the resolved fix_truth mapping onto every one of
the `n` drawn rows, broadcasting the single fixed value, and with no
fix_truth it changes nothing. -/
def overwriteFixedTruths (data : TruthData) (fix : Option FixTruthMap)
    (n : ℕ) : TruthData :=
  match fix with
  | none => data
  | some f =>
    { energy := match f.energy with
        | some e => List.replicate n e
        | none => data.energy
      event_time := match f.event_time with
        | some t => List.replicate n t
        | none => data.event_time }

inductive RandomTruthError where
  | lengthMismatch       -- "Energies and spectrum have different length"
  | emptySpectrum        -- np.random.choice cannot draw from it
  | negativeEnergy       -- "Generated negative energies??"
  | typeErrorNoneFix     -- membership test on None: TypeError
  | timeOutOfBounds      -- "fix_truth time out of bounds"
  | energyOutOfBounds    -- "fix_truth energy out of bounds"
  deriving DecidableEq, Repr

/-- Modelled from the spec: `multihist`'s `get_random` on a (slice of a)
histogram is an out-of-repo collaborator; per the spec's histogram
interface it draws a value inside the range spanned by the first and the
last bin edge.  The draw is driven by a caller-supplied sample `u`,
clamped into `[0, 1]` and mapped affinely onto `[lo, hi]`. -/
def histGetRandom (lo hi u : ℚ) : ℚ := lo + (hi - lo) * (min (max u 0) 1)

theorem histGetRandom_nonneg (lo hi u : ℚ) (hlo : 0 ≤ lo) (hhi : 0 ≤ hi) :
    0 ≤ histGetRandom lo hi u := by
  have h0 : 0 ≤ min (max u 0) 1 := le_min (le_max_right u 0) zero_le_one
  have h1 : min (max u 0) 1 ≤ 1 := min_le_right _ _
  have : histGetRandom lo hi u =
      lo * (1 - min (max u 0) 1) + hi * (min (max u 0) 1) := by
    unfold histGetRandom; ring
  rw [this]
  have := mul_nonneg hlo (by linarith : (0 : ℚ) ≤ 1 - min (max u 0) 1)
  positivity

namespace EnergySpectrum

/-- Embedding of `EnergySpectrum.random_truth` (the fixed-shape engine inherits it
with its `rates_vs_energy` as the spectrum): draw positions and times,
check that spectrum and grid have equal length, draw `n` energies from
the grid values with `np.random.choice` (modelled as grid lookups at
oracle-chosen indices; the choice cannot draw from an empty or
zero-weight spectrum), assert none is negative, then overwrite the fixed
truth values.  `timeDraws` stands for the uniform `draw_time` output and
`idx` is the sampling oracle. -/
def random_truth (energies rates timeDraws : List ℚ) (n : ℕ)
    (fix : Option FixTruthMap) (idx : ℕ → ℕ) :
    Except RandomTruthError TruthData :=
  if rates.length = energies.length then
    if energies.isEmpty ∨ rates.sum = 0 then
      Except.error RandomTruthError.emptySpectrum
    else if ∀ e ∈ (List.range n).map
        (fun k => energies.getD (idx k % energies.length) 0), 0 ≤ e then
      Except.ok (overwriteFixedTruths
        ⟨(List.range n).map
          (fun k => energies.getD (idx k % energies.length) 0),
         timeDraws⟩ fix n)
    else
      Except.error RandomTruthError.negativeEnergy
  else
    Except.error RandomTruthError.lengthMismatch

end EnergySpectrum

namespace WIMPEnergySpectrum

/-- Embedding of `WIMPEnergySpectrum.random_truth`.  `t_edges` and `e_edges` are the
time and energy bin edges of the 2-D `energy_hist` built by `setup`; `us`
is the sampling oracle.  Mirrors the source: membership tests on
`fix_truth` (a `TypeError` when it is `None`); if `event_time` is fixed,
bound-check it against `[t_edges[0], t_edges[-1])` and draw energies from
the time slice; otherwise, if `energy` is fixed, bound-check it against
the energy edges and draw times from the energy slice; otherwise draw
joint (time, energy) pairs from the 2-D histogram.  All paths finish by
overwriting the fixed truth values. -/
def random_truth (t_edges e_edges : List ℚ) (n : ℕ)
    (fix : Option FixTruthMap) (us : List ℚ) :
    Except RandomTruthError TruthData :=
  match fix with
  | none => Except.error RandomTruthError.typeErrorNoneFix
  | some f =>
    match f.event_time with
    | some t =>
      if t_edges.headD 0 ≤ t ∧ t < t_edges.getLastD 0 then
        let es := (List.range n).map
          (fun k => histGetRandom (e_edges.headD 0) (e_edges.getLastD 0)
            (us.getD k 0))
        Except.ok (overwriteFixedTruths ⟨es, []⟩ (some f) n)
      else
        Except.error RandomTruthError.timeOutOfBounds
    | none =>
      match f.energy with
      | some en =>
        if e_edges.headD 0 ≤ en ∧ en < e_edges.getLastD 0 then
          let ts := (List.range n).map
            (fun k => histGetRandom (t_edges.headD 0) (t_edges.getLastD 0)
              (us.getD k 0))
          Except.ok (overwriteFixedTruths ⟨[], ts⟩ (some f) n)
        else
          Except.error RandomTruthError.energyOutOfBounds
      | none =>
        let ts := (List.range n).map
          (fun k => histGetRandom (t_edges.headD 0) (t_edges.getLastD 0)
            (us.getD (2 * k) 0))
        let es := (List.range n).map
          (fun k => histGetRandom (e_edges.headD 0) (e_edges.getLastD 0)
            (us.getD (2 * k + 1) 0))
        Except.ok (overwriteFixedTruths ⟨es, ts⟩ (some f) n)

/-- Definitional reduction of `random_truth` when `event_time` is fixed. -/
theorem random_truth_timeFixed (t_edges e_edges : List ℚ) (n : ℕ) (t : ℚ)
    (fen : Option ℚ) (us : List ℚ) :
    random_truth t_edges e_edges n (some ⟨some t, fen⟩) us =
      if t_edges.headD 0 ≤ t ∧ t < t_edges.getLastD 0 then
        Except.ok (overwriteFixedTruths
          ⟨(List.range n).map
            (fun k => histGetRandom (e_edges.headD 0) (e_edges.getLastD 0)
              (us.getD k 0)), []⟩ (some ⟨some t, fen⟩) n)
      else
        Except.error RandomTruthError.timeOutOfBounds := rfl

/-- Definitional reduction of `random_truth` when only `energy` is fixed. -/
theorem random_truth_energyFixed (t_edges e_edges : List ℚ) (n : ℕ)
    (en : ℚ) (us : List ℚ) :
    random_truth t_edges e_edges n (some ⟨none, some en⟩) us =
      if e_edges.headD 0 ≤ en ∧ en < e_edges.getLastD 0 then
        Except.ok (overwriteFixedTruths
          ⟨[], (List.range n).map
            (fun k => histGetRandom (t_edges.headD 0) (t_edges.getLastD 0)
              (us.getD k 0))⟩ (some ⟨none, some en⟩) n)
      else
        Except.error RandomTruthError.energyOutOfBounds := rfl

/-- Definitional reduction of `random_truth` when neither time nor energy
is fixed. -/
theorem random_truth_joint (t_edges e_edges : List ℚ) (n : ℕ)
    (us : List ℚ) :
    random_truth t_edges e_edges n (some ⟨none, none⟩) us =
      Except.ok (overwriteFixedTruths
        ⟨(List.range n).map
          (fun k => histGetRandom (e_edges.headD 0) (e_edges.getLastD 0)
            (us.getD (2 * k + 1) 0)),
         (List.range n).map
          (fun k => histGetRandom (t_edges.headD 0) (t_edges.getLastD 0)
            (us.getD (2 * k) 0))⟩ (some ⟨none, none⟩) n) := rfl

end WIMPEnergySpectrum

/-- C4: in `WIMPEnergySpectrum.random_truth` with a fixed `event_time`,
the fixed time is bound-checked against the half-open range
`[t_edges[0], t_edges[-1])`: a time at or beyond the last edge (or below
the first) fails the call, a time at or just inside the first edge
succeeds — regardless of any fixed energy, i.e. the time-fixed case takes
priority; the energy-fixed case is bound-checked only when time is not
fixed, and when neither is fixed a joint (time, energy) pair batch is
sampled from the 2-D histogram. -/
theorem C4_spec (t_edges e_edges : List ℚ) (n : ℕ) (f : FixTruthMap)
    (us : List ℚ) :
    (∀ t, f.event_time = some t → t_edges.getLastD 0 ≤ t →
      WIMPEnergySpectrum.random_truth t_edges e_edges n (some f) us =
        Except.error RandomTruthError.timeOutOfBounds) ∧
    (∀ t, f.event_time = some t → t < t_edges.headD 0 →
      WIMPEnergySpectrum.random_truth t_edges e_edges n (some f) us =
        Except.error RandomTruthError.timeOutOfBounds) ∧
    (∀ t, f.event_time = some t → t_edges.headD 0 ≤ t →
      t < t_edges.getLastD 0 →
      ∃ d, WIMPEnergySpectrum.random_truth t_edges e_edges n (some f) us =
        Except.ok d) ∧
    (∀ en, f.event_time = none → f.energy = some en →
      (¬ (e_edges.headD 0 ≤ en ∧ en < e_edges.getLastD 0) →
        WIMPEnergySpectrum.random_truth t_edges e_edges n (some f) us =
          Except.error RandomTruthError.energyOutOfBounds) ∧
      (e_edges.headD 0 ≤ en → en < e_edges.getLastD 0 →
        ∃ d, WIMPEnergySpectrum.random_truth t_edges e_edges n (some f) us =
          Except.ok d)) ∧
    (f.event_time = none → f.energy = none →
      ∃ d, WIMPEnergySpectrum.random_truth t_edges e_edges n (some f) us =
        Except.ok d) := by
  obtain ⟨fet, fen⟩ := f
  refine ⟨?_, ?_, ?_, ?_, ?_⟩
  · intro t ht hge
    cases ht
    rw [WIMPEnergySpectrum.random_truth_timeFixed,
      if_neg (fun hc => absurd hge (not_le.mpr hc.2))]
  · intro t ht hlt
    cases ht
    rw [WIMPEnergySpectrum.random_truth_timeFixed,
      if_neg (fun hc => absurd hc.1 (not_le.mpr hlt))]
  · intro t ht h1 h2
    cases ht
    rw [WIMPEnergySpectrum.random_truth_timeFixed, if_pos ⟨h1, h2⟩]
    exact ⟨_, rfl⟩
  · intro en ht hen
    cases ht
    cases hen
    constructor
    · intro hout
      rw [WIMPEnergySpectrum.random_truth_energyFixed, if_neg hout]
    · intro h1 h2
      rw [WIMPEnergySpectrum.random_truth_energyFixed, if_pos ⟨h1, h2⟩]
      exact ⟨_, rfl⟩
  · intro ht hen
    cases ht
    cases hen
    rw [WIMPEnergySpectrum.random_truth_joint]
    exact ⟨_, rfl⟩

/-- Witness for C4 with `t_edges = [0, 10]`, `e_edges = [1, 2]`: a fixed
time exactly at the last edge fails; a fixed time exactly at the first
edge succeeds even though the also-fixed energy (100) is far out of
range, exhibiting the priority of the time-fixed case. -/
theorem C4_witness :
    WIMPEnergySpectrum.random_truth [0, 10] [1, 2] 1
        (some ⟨some 10, none⟩) [] =
      Except.error RandomTruthError.timeOutOfBounds ∧
    (∃ d, WIMPEnergySpectrum.random_truth [0, 10] [1, 2] 1
        (some ⟨some 0, some 100⟩) [] = Except.ok d) :=
  ⟨(C4_spec [0, 10] [1, 2] 1 ⟨some 10, none⟩ []).1 10 rfl (by norm_num),
   (C4_spec [0, 10] [1, 2] 1 ⟨some 0, some 100⟩ []).2.2.1 0 rfl
     (by norm_num) (by norm_num)⟩

theorem getD_mod_mem (l : List ℚ) (h : l ≠ []) (i : ℕ) :
    l.getD (i % l.length) 0 ∈ l := by
  have hlen : 0 < l.length := List.length_pos.mpr h
  have hmod : i % l.length < l.length := Nat.mod_lt _ hlen
  rw [List.getD_eq_getElem l 0 hmod]
  exact List.getElem_mem hmod

/-- C8: with the default `fix_truth = None`, `random_truth(n)` never
returns a negative energy: in the fixed-shape engine every successful
call passed the non-negativity assert, the WIMP engine with `None`
fails before producing any record, and a WIMP call with a resolved
mapping that does not fix the energy only draws energies within the
(non-negative, as for the default `np.geomspace(0.7, 50, 100)` edges)
energy-bin range. -/
theorem C8_spec :
    (∀ (energies rates timeDraws : List ℚ) (n : ℕ) (idx : ℕ → ℕ)
        (d : TruthData),
      EnergySpectrum.random_truth energies rates timeDraws n none idx =
        Except.ok d →
      ∀ e ∈ d.energy, 0 ≤ e) ∧
    (∀ (t_edges e_edges : List ℚ) (n : ℕ) (us : List ℚ),
      WIMPEnergySpectrum.random_truth t_edges e_edges n none us =
        Except.error RandomTruthError.typeErrorNoneFix) ∧
    (∀ (t_edges e_edges : List ℚ) (n : ℕ) (f : FixTruthMap) (us : List ℚ)
        (d : TruthData),
      f.energy = none → 0 ≤ e_edges.headD 0 → 0 ≤ e_edges.getLastD 0 →
      WIMPEnergySpectrum.random_truth t_edges e_edges n (some f) us =
        Except.ok d →
      ∀ e ∈ d.energy, 0 ≤ e) := by
  refine ⟨?_, fun _ _ _ _ => rfl, ?_⟩
  · intro energies rates timeDraws n idx d hok e he
    by_cases h1 : rates.length = energies.length
    · rw [EnergySpectrum.random_truth, if_pos h1] at hok
      by_cases h2 : energies.isEmpty ∨ rates.sum = 0
      · rw [if_pos h2] at hok
        cases hok
      · rw [if_neg h2] at hok
        by_cases h3 : ∀ x ∈ (List.range n).map
            (fun k => energies.getD (idx k % energies.length) 0), (0 : ℚ) ≤ x
        · rw [if_pos h3] at hok
          injection hok with hd
          subst hd
          exact h3 e he
        · rw [if_neg h3] at hok
          cases hok
    · rw [EnergySpectrum.random_truth, if_neg h1] at hok
      cases hok
  · intro t_edges e_edges n f us d hfe h0 hL hok e he
    obtain ⟨fet, fen⟩ := f
    cases hfe
    cases fet with
    | some t =>
      rw [WIMPEnergySpectrum.random_truth_timeFixed] at hok
      by_cases hb : t_edges.headD 0 ≤ t ∧ t < t_edges.getLastD 0
      · rw [if_pos hb] at hok
        injection hok with hd
        subst hd
        simp only [overwriteFixedTruths] at he
        obtain ⟨k, -, rfl⟩ := List.mem_map.mp he
        exact histGetRandom_nonneg _ _ _ h0 hL
      · rw [if_neg hb] at hok
        cases hok
    | none =>
      rw [WIMPEnergySpectrum.random_truth_joint] at hok
      injection hok with hd
      subst hd
      simp only [overwriteFixedTruths] at he
      obtain ⟨k, -, rfl⟩ := List.mem_map.mp he
      exact histGetRandom_nonneg _ _ _ h0 hL

/-- Witness for C8: a concrete successful fixed-shape draw yields the
non-negative energy 1, and the WIMP engine with `None` fails. -/
theorem C8_witness :
    (0 : ℚ) ≤ 1 ∧
    WIMPEnergySpectrum.random_truth [0, 1] [0, 1] 1 none [] =
      Except.error RandomTruthError.typeErrorNoneFix := by
  constructor
  · have hok : EnergySpectrum.random_truth [1] [1] [] 1 none (fun _ => 0) =
        Except.ok ⟨[1], []⟩ := by
      have hr : List.range 1 = [0] := rfl
      rw [EnergySpectrum.random_truth, if_pos rfl, if_neg (by norm_num),
        if_pos (by norm_num [hr])]
      norm_num [overwriteFixedTruths, hr]
    exact C8_spec.1 [1] [1] [] 1 (fun _ => 0) ⟨[1], []⟩ hok 1 (by norm_num)
  · exact C8_spec.2.1 [0, 1] [0, 1] 1 []

/-- C10: calling `WIMPEnergySpectrum.random_truth` with its declared
default `fix_truth = None` raises a `TypeError` before any truth record
is produced (the membership test `'event_time' in fix_truth` is evaluated
on `None`); the base/fixed-shape engine, by contrast, succeeds with
`fix_truth = None` given any well-formed spectrum configuration. -/
theorem C10_spec (t_edges e_edges us : List ℚ) (n : ℕ)
    (energies rates timeDraws : List ℚ) (idx : ℕ → ℕ)
    (h1 : energies ≠ []) (h2 : rates.length = energies.length)
    (h3 : rates.sum ≠ 0) (h4 : ∀ e ∈ energies, 0 ≤ e) :
    WIMPEnergySpectrum.random_truth t_edges e_edges n none us =
      Except.error RandomTruthError.typeErrorNoneFix ∧
    ∃ d, EnergySpectrum.random_truth energies rates timeDraws n none idx =
      Except.ok d := by
  refine ⟨rfl, ?_⟩
  rw [EnergySpectrum.random_truth, if_pos h2,
    if_neg (by simp [List.isEmpty_iff, h1, h3]),
    if_pos ?_]
  · exact ⟨_, rfl⟩
  · intro x hx
    obtain ⟨k, -, rfl⟩ := List.mem_map.mp hx
    exact h4 _ (getD_mod_mem energies h1 _)

/-- Witness for C10 at a concrete configuration. -/
theorem C10_witness :
    WIMPEnergySpectrum.random_truth [0, 1] [0, 1] 1 none [] =
      Except.error RandomTruthError.typeErrorNoneFix ∧
    ∃ d, EnergySpectrum.random_truth [1, 2] [1, 1] [] 1 none (fun k => k) =
      Except.ok d :=
  C10_spec [0, 1] [0, 1] [] 1 [1, 2] [1, 1] [] (fun k => k)
    (by decide) (by decide) (by norm_num) (by norm_num)

/-! ## EnergySpectrum.validate_fix_truth

Position coordinates are real numbers; the coordinate conversions are
out-of-repo `fd` utilities, modelled from the spec. -/

/-- Modelled from the spec: `fd.cart_to_pol` is not part of the given
source file.  Per the spec's coordinate round-trip property it maps
Cartesian `(x, y)` to polar `(r, θ)` with `r = √(x² + y²)` and `θ` the
standard atan2-style angle of the point. -/
noncomputable def cart_to_pol (x y : ℝ) : ℝ × ℝ :=
  (Real.sqrt (x ^ 2 + y ^ 2),
   if 0 < x then Real.arctan (y / x)
   else if x < 0 ∧ 0 ≤ y then Real.arctan (y / x) + Real.pi
   else if x < 0 then Real.arctan (y / x) - Real.pi
   else if 0 < y then Real.pi / 2
   else if y < 0 then -(Real.pi / 2)
   else 0)

/-- Modelled from the spec: `fd.pol_to_cart` is not part of the given
source file.  It maps polar `(r, θ)` to Cartesian
`(r·cos θ, r·sin θ)`. -/
noncomputable def pol_to_cart (r theta : ℝ) : ℝ × ℝ :=
  (r * Real.cos theta, r * Real.sin theta)

/-- A fix_truth mapping: each truth field is present (`some`) or
absent (`none`). -/
structure FixDict where
  x : Option ℝ
  y : Option ℝ
  z : Option ℝ
  r : Option ℝ
  theta : Option ℝ
  drift_time : Option ℝ
  event_time : Option ℝ
  energy : Option ℝ

/-- A one-line DataFrame row of an observed event, with at least the
columns `validate_fix_truth` projects out. -/
structure TruthRow where
  x : ℝ
  y : ℝ
  z : ℝ
  r : ℝ
  theta : ℝ
  event_time : ℝ
  drift_time : ℝ
  energy : ℝ

/-- The possible runtime types of the `d` argument of
`validate_fix_truth`. -/
inductive FixInput where
  | nullValue              -- Python None
  | frame (row : TruthRow) -- a pandas DataFrame
  | dict (d : FixDict)     -- a plain dict
  | otherType              -- anything else

/-- Failures of `validate_fix_truth`, one per raise site. -/
inductive FixError where
  | wrongType           -- "fix_truth needs to be a DataFrame, dict, or None"
  | incompletePosition  -- "When fixing position, give (x, y, z), or (r, theta, z)."
  | noAnchor            -- "Dict should contain at least [x, y, z] and/or ..."
  deriving DecidableEq, Repr

namespace EnergySpectrum

/-- Embedding of `EnergySpectrum.validate_fix_truth`: `None` becomes an empty mapping;
a DataFrame row is projected onto the columns
`[x, y, z, r, theta, event_time, drift_time]`; any other non-dict fails;
a dict containing `z` must also contain both `{x, y}` (from which
`(r, theta)` is derived) or both `{r, theta}` (from which `(x, y)` is
derived), and gets `drift_time = -z / drift_velocity` recomputed; a dict
without `z`, `event_time` and `energy` fails.  Failures return no partial
result. -/
noncomputable def validate_fix_truth (drift_velocity : ℝ) :
    FixInput → Except FixError FixDict
  | FixInput.nullValue =>
      Except.ok ⟨none, none, none, none, none, none, none, none⟩
  | FixInput.frame row =>
      Except.ok ⟨some row.x, some row.y, some row.z, some row.r,
        some row.theta, some row.drift_time, some row.event_time, none⟩
  | FixInput.otherType => Except.error FixError.wrongType
  | FixInput.dict d =>
    match d.z with
    | some z =>
      match d.x, d.y with
      | some x, some y =>
        Except.ok { d with
          r := some (cart_to_pol x y).1
          theta := some (cart_to_pol x y).2
          drift_time := some (-z / drift_velocity) }
      | _, _ =>
        match d.r, d.theta with
        | some rr, some th =>
          Except.ok { d with
            x := some (pol_to_cart rr th).1
            y := some (pol_to_cart rr th).2
            drift_time := some (-z / drift_velocity) }
        | _, _ => Except.error FixError.incompletePosition
    | none =>
      match d.event_time, d.energy with
      | none, none => Except.error FixError.noAnchor
      | _, _ => Except.ok d

end EnergySpectrum

/-- C5: `validate_fix_truth` on a mapping containing `z` together with
both `x` and `y` (resp. both `r` and `theta`) derives the missing
coordinate pair and recomputes `drift_time = -z / drift_velocity`; in
particular `{x: 1, y: 1, z: -10}` yields `r = √2`, `theta = π/4` and
`drift_time = 10 / drift_velocity`. -/
theorem C5_spec (v : ℝ) (d : FixDict) :
    (∀ x y z, d.x = some x → d.y = some y → d.z = some z →
      EnergySpectrum.validate_fix_truth v (FixInput.dict d) =
        Except.ok { d with
          r := some (cart_to_pol x y).1
          theta := some (cart_to_pol x y).2
          drift_time := some (-z / v) }) ∧
    (∀ rr th z, d.x = none → d.r = some rr → d.theta = some th →
      d.z = some z →
      EnergySpectrum.validate_fix_truth v (FixInput.dict d) =
        Except.ok { d with
          x := some (pol_to_cart rr th).1
          y := some (pol_to_cart rr th).2
          drift_time := some (-z / v) }) ∧
    EnergySpectrum.validate_fix_truth v
        (FixInput.dict ⟨some 1, some 1, some (-10), none, none, none,
          none, none⟩) =
      Except.ok ⟨some 1, some 1, some (-10), some (Real.sqrt 2),
        some (Real.pi / 4), some (10 / v), none, none⟩ := by
  obtain ⟨dx, dy, dz, dr, dth, ddt, det, den⟩ := d
  refine ⟨?_, ?_, ?_⟩
  · intro x y z hx hy hz
    cases hx; cases hy; cases hz
    rfl
  · intro rr th z hx hr hth hz
    cases hx; cases hr; cases hth; cases hz
    rfl
  · show Except.ok _ = _
    have h1 : (cart_to_pol 1 1).1 = Real.sqrt 2 := by
      unfold cart_to_pol
      norm_num
    have h2 : (cart_to_pol 1 1).2 = Real.pi / 4 := by
      unfold cart_to_pol
      rw [if_pos one_pos]
      norm_num [Real.arctan_one]
    rw [h1, h2]
    norm_num

/-- Witness for C5: the `{x, y, z}` completion at the concrete input
`{x: 1, y: 1, z: -10}` with drift velocity 2. -/
theorem C5_witness :
    EnergySpectrum.validate_fix_truth 2
        (FixInput.dict ⟨some 1, some 1, some (-10), none, none, none,
          none, none⟩) =
      Except.ok { (⟨some 1, some 1, some (-10), none, none, none, none,
          none⟩ : FixDict) with
        r := some (cart_to_pol 1 1).1
        theta := some (cart_to_pol 1 1).2
        drift_time := some (-(-10) / 2) } :=
  (C5_spec 2 ⟨some 1, some 1, some (-10), none, none, none, none,
    none⟩).1 1 1 (-10) rfl rfl rfl

/-- C6: `validate_fix_truth` rejects underspecified inputs: `None` maps
to an empty mapping, but an empty dict fails, a dict containing only `z`
(without both `{x, y}` or both `{r, theta}`) fails with the
incomplete-position error describing the required alternative sets, any
dict with none of position (`z`), `event_time` or `energy` fails, and an
input that is not `None`, a DataFrame or a dict fails; an error carries
no partial result. -/
theorem C6_spec (v : ℝ) (d : FixDict)
    (hz : d.z = none) (ht : d.event_time = none) (he : d.energy = none) :
    EnergySpectrum.validate_fix_truth v FixInput.nullValue =
      Except.ok ⟨none, none, none, none, none, none, none, none⟩ ∧
    EnergySpectrum.validate_fix_truth v
        (FixInput.dict ⟨none, none, none, none, none, none, none, none⟩) =
      Except.error FixError.noAnchor ∧
    EnergySpectrum.validate_fix_truth v
        (FixInput.dict ⟨none, none, some (-10), none, none, none, none,
          none⟩) =
      Except.error FixError.incompletePosition ∧
    EnergySpectrum.validate_fix_truth v (FixInput.dict d) =
      Except.error FixError.noAnchor ∧
    EnergySpectrum.validate_fix_truth v FixInput.otherType =
      Except.error FixError.wrongType := by
  obtain ⟨dx, dy, dz, dr, dth, ddt, det, den⟩ := d
  cases hz; cases ht; cases he
  exact ⟨rfl, rfl, rfl, rfl, rfl⟩

/-- Witness for C6: a dict fixing only `x` (no position anchor `z`, no
time, no energy) fails. -/
theorem C6_witness :
    EnergySpectrum.validate_fix_truth 1
        (FixInput.dict ⟨some 5, none, none, none, none, none, none,
          none⟩) =
      Except.error FixError.noAnchor :=
  (C6_spec 1 ⟨some 5, none, none, none, none, none, none, none⟩
    rfl rfl rfl).2.2.2.1

end Flamedisx
